import Mathlib

/-!
Shallow embedding of the `dotenvironment` Python package
(`src/dotenvironment/_main.py`, `_variable_config.py`, `_types.py`).

Modelling conventions:
* Python runtime values that flow through the registry are modelled by the
  dynamic type `Value` (environment values are strings; cast functions and
  defaults may produce other types, here ints or strings suffice).
* Python exceptions are modelled by `PyErr`.  An exception raised by a
  caller-supplied cast function is carried verbatim as payload of the
  `raisedByCast` constructor (the embedding of "the exact exception object
  the cast raised"); the library's own exception classes
  (`PrefixMustBeUpperCaseError`, `VariableNameMustBeUpperCaseError`,
  `EnvironmentVariableNotDefined`, `KeyError`) are the other constructors,
  each carrying the message string the source builds.
* `os.environ` (after `dotenv.load_dotenv()`) is an ambient partial map
  `Env := String → Option String`.
* Python functions that may raise return `Except PyErr _`; stateful methods
  additionally return the post-state (exceptions do not roll state back).
* To express "the default-producing callable is invoked exactly once",
  resolution functions also return the number of times the callable default
  was applied (each syntactic call `self._default()` in the source counts 1).
* `str.upper()` is modelled by `pyUpper`, character-wise upper-casing
  (these names are ASCII, where the two coincide); a Python `dict` by an
  association list with dict semantics (`dictGet`, `dictSet`, `dictMem`):
  assignment replaces the value under an existing key in place, otherwise
  appends.
-/

/-- Dynamic runtime value (enough of Python's value universe for this API:
environment values are `str`; casts/defaults here produce `str` or `int`). -/
inductive Value where
  | str (s : String)
  | int (n : Int)
  deriving DecidableEq, Repr

/-- Python exceptions, as raised by this package or by caller code. -/
inductive PyErr where
  /-- `PrefixMustBeUpperCaseError(msg)` (spec name: `InvalidPrefixError`). -/
  | pfxNotUpper (msg : String)
  /-- `VariableNameMustBeUpperCaseError(msg)` (spec: `InvalidVariableNameError`). -/
  | nameNotUpper (msg : String)
  /-- `EnvironmentVariableNotDefined(msg)` (spec: `MissingVariableError`). -/
  | notDefined (msg : String)
  /-- `KeyError(msg)` (spec: `UndeclaredVariableError`). -/
  | keyError (msg : String)
  /-- An exception raised by a caller-supplied cast function, carried verbatim. -/
  | raisedByCast (e : String)
  deriving DecidableEq, Repr

/-- A value `__getitem__` can return: a stored `Value`, or (because of the
`return KeyError(...)` line in the source) an exception *object* returned
as an ordinary value. -/
inductive PyObject where
  | val (v : Value)
  | exc (e : PyErr)
  deriving DecidableEq, Repr

/-- `os.environ` after `dotenv.load_dotenv()`. -/
def Env : Type := String → Option String

/-- A caller-supplied cast function `CastFunction = Callable[[str], _T]`;
it may raise (error payload carried verbatim). -/
def Cast : Type := String → Except String Value

/-- The `default` argument of `variable`: the `...` sentinel, a plain value,
or a zero-argument callable (Python distinguishes these dynamically via
`isinstance(default, EllipsisType)` and `callable(default)`). -/
inductive DefaultArg where
  | ellipsis
  | plain (v : Value)
  | callable (f : Unit → Value)

/-- The state of a `_VariableConfig` instance after `__init__` succeeded
(`_name`, `_cast`, `_default`, `_prefix`, `_variable_name`, `value`,
`_default_used`). -/
structure VariableConfig where
  name : String
  cast : Cast
  default : DefaultArg
  pfx : String
  variableName : String
  value : Value
  defaultUsed : Bool

/-- Python `dict` lookup: value stored under `k`, if any. -/
def dictGet (m : List (String × VariableConfig)) (k : String) :
    Option VariableConfig :=
  match m with
  | [] => none
  | (k', v') :: rest => if k' = k then some v' else dictGet rest k

/-- Python `dict` membership test (`k in d`). -/
def dictMem (m : List (String × VariableConfig)) (k : String) : Bool :=
  match m with
  | [] => false
  | (k', _) :: rest => if k' = k then true else dictMem rest k

/-- Python `dict` assignment `d[k] = v`: replaces in place under an existing
key, otherwise appends. -/
def dictSet (m : List (String × VariableConfig)) (k : String)
    (v : VariableConfig) : List (String × VariableConfig) :=
  match m with
  | [] => [(k, v)]
  | (k', v') :: rest =>
    if k' = k then (k, v) :: rest else (k', v') :: dictSet rest k v

/-- Python's `str.upper()`: character-wise upper-casing. -/
def pyUpper (s : String) : String :=
  ⟨s.data.map Char.toUpper⟩

/-- `_VariableConfig._validate_name`: raises
`VariableNameMustBeUpperCaseError` when `name != name.upper()`. -/
def validateName (name : String) : Except PyErr Unit :=
  if name ≠ pyUpper name then
    .error (.nameNotUpper "El nombre de variables de entorno debe ir en MAYÚSCULAS")
  else
    .ok ()

/-- `DotEnvironment._validate_prefix`: raises `PrefixMustBeUpperCaseError`
when the prefix is not equal to its own upper-cased form. -/
def validatePfx (p : String) : Except PyErr Unit :=
  if p ≠ pyUpper p then
    .error (.pfxNotUpper "El prefijo de nombre de variables de entorno debe ir en MAYÚSCULAS")
  else
    .ok ()

/-- `_VariableConfig._get_default_var`.  Returns the resolved value (with the
`_default_used` flag, which the source sets to `True` on every non-ellipsis
path) and the number of times the callable default was invoked. -/
def getDefaultVar (variableName : String) (default : DefaultArg) :
    Except PyErr (Value × Bool) × Nat :=
  match default with
  | .ellipsis =>
      (.error (.notDefined ("Variable '" ++ variableName ++ "' no definida.")), 0)
  | .callable f => (.ok (f (), true), 1)
  | .plain v => (.ok (v, true), 0)

/-- `_VariableConfig._cast_value`: applies the caller-supplied cast; an
exception it raises propagates (payload verbatim). -/
def castValue (cast : Cast) (variableValue : String) : Except PyErr Value :=
  match cast variableValue with
  | .error e => .error (.raisedByCast e)
  | .ok v => .ok v

/-- Outcome of `_VariableConfig._load`: the resolved `value` attribute and
the `_default_used` flag. -/
structure LoadOut where
  value : Value
  defaultUsed : Bool
  deriving DecidableEq, Repr

/-- `_VariableConfig._load`: reads `os.environ.get(variable_name)`; if absent
resolves via the default, otherwise casts the raw string.  Also returns the
callable-default invocation count. -/
def load (env : Env) (variableName : String) (cast : Cast)
    (default : DefaultArg) : Except PyErr LoadOut × Nat :=
  match env variableName with
  | none =>
      match getDefaultVar variableName default with
      | (.error e, k) => (.error e, k)
      | (.ok (v, used), k) => (.ok ⟨v, used⟩, k)
  | some raw =>
      match castValue cast raw with
      | .error e => (.error e, 0)
      | .ok v => (.ok ⟨v, false⟩, 0)

/-- `_VariableConfig.__init__`: validates the name, stores the parameters,
builds `variable_name = prefix + name` and loads the value.  Also returns
the callable-default invocation count. -/
def mkVariableConfig (env : Env) (pfx name : String) (cast : Cast)
    (default : DefaultArg) : Except PyErr VariableConfig × Nat :=
  match validateName name with
  | .error e => (.error e, 0)
  | .ok _ =>
      match load env (pfx ++ name) cast default with
      | (.error e, k) => (.error e, k)
      | (.ok out, k) =>
          (.ok ⟨name, cast, default, pfx, pfx ++ name, out.value, out.defaultUsed⟩, k)

/-- The state of a `DotEnvironment` instance: the declared prefix and the
`_stored_variables` dict. -/
structure DotEnvironment where
  pfx : String
  storedVariables : List (String × VariableConfig)

/-- `DotEnvironment.__init__`: validates the prefix, then initialises the
prefix and the empty dict. -/
def mkRegistry (p : String) : Except PyErr DotEnvironment :=
  match validatePfx p with
  | .error e => .error e
  | .ok _ => .ok ⟨p, []⟩

/-- `DotEnvironment.variable`: builds a `_VariableConfig`; on success stores
it under `prefix + name` and returns its value.  The post-state is returned
in both cases (an exception raised inside `_VariableConfig` propagates
before the dict assignment line runs, so the state is the original one).
Third component: callable-default invocation count. -/
def DotEnvironment.variable (env : Env) (d : DotEnvironment) (name : String)
    (cast : Cast) (default : DefaultArg) :
    DotEnvironment × Except PyErr Value × Nat :=
  match mkVariableConfig env d.pfx name cast default with
  | (.error e, k) => (d, .error e, k)
  | (.ok vc, k) =>
      ({ d with storedVariables := dictSet d.storedVariables (d.pfx ++ name) vc },
       .ok vc.value, k)

/-- `DotEnvironment.__getitem__`: tries the bare key, then the prefixed key;
if neither is stored, the source executes `return KeyError(...)` — it
*returns* the exception object instead of raising it, hence the `.ok (.exc _)`
result. -/
def DotEnvironment.getItem (d : DotEnvironment) (key : String) :
    Except PyErr PyObject :=
  match dictGet d.storedVariables key with
  | some vc => .ok (.val vc.value)
  | none =>
      match dictGet d.storedVariables (d.pfx ++ key) with
      | some vc => .ok (.val vc.value)
      | none =>
          .ok (.exc (.keyError
            ("La variable '" ++ key ++ "' no está definida en este entorno.")))

/-- `DotEnvironment.__contains__`: the bare key or the prefixed key is stored. -/
def DotEnvironment.contains (d : DotEnvironment) (key : String) : Bool :=
  dictMem d.storedVariables key || dictMem d.storedVariables (d.pfx ++ key)

/-! ### Association-list (dict) lemmas -/

theorem dictGet_dictSet_self (m : List (String × VariableConfig)) (k : String)
    (v : VariableConfig) : dictGet (dictSet m k v) k = some v := by
  induction m with
  | nil => simp [dictSet, dictGet]
  | cons hd tl ih =>
    obtain ⟨k', v'⟩ := hd
    by_cases h : k' = k
    · simp [dictSet, dictGet, h]
    · simp [dictSet, dictGet, h, ih]

theorem dictGet_dictSet_ne (m : List (String × VariableConfig))
    (k k' : String) (v : VariableConfig) (h : k' ≠ k) :
    dictGet (dictSet m k v) k' = dictGet m k' := by
  induction m with
  | nil => simp [dictSet, dictGet, Ne.symm h]
  | cons hd tl ih =>
    obtain ⟨k₀, v₀⟩ := hd
    by_cases h₀ : k₀ = k
    · subst h₀
      simp [dictSet, dictGet, Ne.symm h]
    · by_cases h₁ : k₀ = k'
      · subst h₁
        simp [dictSet, dictGet, h₀]
      · simp [dictSet, dictGet, h₀, h₁, ih]

theorem dictMem_dictSet (m : List (String × VariableConfig)) (k k' : String)
    (v : VariableConfig) :
    dictMem (dictSet m k v) k' = (k = k' || dictMem m k') := by
  induction m with
  | nil => simp [dictSet, dictMem]
  | cons hd tl ih =>
    obtain ⟨k₀, v₀⟩ := hd
    by_cases h₀ : k₀ = k
    · subst h₀
      by_cases h₁ : k₀ = k' <;> simp [dictSet, dictMem, h₁]
    · by_cases h₁ : k₀ = k'
      · subst h₁
        simp [dictSet, dictMem, h₀]
      · simp [dictSet, dictMem, h₀, h₁, ih]

theorem dictMem_eq_true_of_dictGet (m : List (String × VariableConfig))
    (k : String) (vc : VariableConfig) (h : dictGet m k = some vc) :
    dictMem m k = true := by
  induction m with
  | nil => simp [dictGet] at h
  | cons hd tl ih =>
    obtain ⟨k₀, v₀⟩ := hd
    by_cases h₀ : k₀ = k
    · simp [dictMem, h₀]
    · simp [dictGet, h₀] at h
      simp [dictMem, h₀, ih h]

/-! ### Shape lemmas about the resolution pipeline -/

/-- The only exceptions `_load` can raise are `EnvironmentVariableNotDefined`
(missing variable, no default) and whatever the caller-supplied cast raised. -/
theorem load_error_shape (env : Env) (vn : String) (cast : Cast)
    (default : DefaultArg) (e : PyErr) (k : Nat)
    (h : load env vn cast default = (.error e, k)) :
    (∃ msg, e = .notDefined msg) ∨ (∃ s, e = .raisedByCast s) := by
  unfold load at h
  cases henv : env vn with
  | none =>
    rw [henv] at h
    cases default with
    | ellipsis =>
      simp [getDefaultVar] at h
      exact Or.inl ⟨_, h.1.symm⟩
    | plain v => simp [getDefaultVar] at h
    | callable f => simp [getDefaultVar] at h
  | some raw =>
    rw [henv] at h
    cases hc : cast raw with
    | error s =>
      simp [castValue, hc] at h
      exact Or.inr ⟨_, h.1.symm⟩
    | ok v => simp [castValue, hc] at h

/-- On success, `DotEnvironment.variable` stores the new config under the
qualified name and returns its value. -/
theorem variable_ok (env : Env) (d : DotEnvironment) (name : String)
    (cast : Cast) (default : DefaultArg) (vc : VariableConfig) (k : Nat)
    (h : mkVariableConfig env d.pfx name cast default = (.ok vc, k)) :
    DotEnvironment.variable env d name cast default =
      ({ d with storedVariables := dictSet d.storedVariables (d.pfx ++ name) vc },
       .ok vc.value, k) := by
  unfold DotEnvironment.variable
  rw [h]

/-! ### Claim theorems -/

/-- C1: on a registry with empty prefix and no declarations, looking up the
key `"OTHER"` does not raise: `__getitem__` returns normally, yielding the
`KeyError` exception object as its value (the source line is
`return KeyError(...)`, although its own comment says the error is raised). -/
theorem c1_lookup_returns_keyerror_object_instead_of_raising :
    mkRegistry "" = .ok ⟨"", []⟩
    ∧ DotEnvironment.getItem ⟨"", []⟩ "OTHER"
        = .ok (.exc (.keyError "La variable 'OTHER' no está definida en este entorno.")) :=
  ⟨rfl, rfl⟩

/-- C2: whenever a declaration (`DotEnvironment.variable`) fails with any
exception, the registry state — in particular its entry mapping — is exactly
what it was before the call: no partial entry is added. -/
theorem c2_failed_declaration_leaves_registry_unchanged
    (env : Env) (d : DotEnvironment) (name : String) (cast : Cast)
    (default : DefaultArg) (e : PyErr)
    (h : (DotEnvironment.variable env d name cast default).2.1 = .error e) :
    (DotEnvironment.variable env d name cast default).1 = d := by
  cases hres : mkVariableConfig env d.pfx name cast default with
  | mk res k =>
    cases res with
    | error e' => simp [DotEnvironment.variable, hres]
    | ok vc =>
      exfalso
      simp [DotEnvironment.variable, hres] at h

/-- Witness for C2 at a concrete input: declaring the invalid name
`"db_port"` fails, and the registry is unchanged. -/
theorem c2_witness :
    (DotEnvironment.variable (fun _ => none) ⟨"", []⟩ "db_port"
        (fun s => .ok (.str s)) .ellipsis).2.1
      = .error (.nameNotUpper "El nombre de variables de entorno debe ir en MAYÚSCULAS")
    ∧ (DotEnvironment.variable (fun _ => none) ⟨"", []⟩ "db_port"
        (fun s => .ok (.str s)) .ellipsis).1 = ⟨"", []⟩ :=
  ⟨rfl, c2_failed_declaration_leaves_registry_unchanged _ _ _ _ _ _ rfl⟩

/-- C8: registry construction fails (with `PrefixMustBeUpperCaseError`, the
spec's `InvalidPrefixError`) exactly when the prefix differs from its own
upper-cased form; the empty prefix is accepted. -/
theorem c8_registry_construction_validates_upper_case (p : String) :
    (mkRegistry p
        = .error (.pfxNotUpper "El prefijo de nombre de variables de entorno debe ir en MAYÚSCULAS")
      ↔ p ≠ pyUpper p)
    ∧ mkRegistry "" = .ok ⟨"", []⟩ := by
  refine ⟨?_, rfl⟩
  by_cases hp : p = pyUpper p
  · have hnn : ¬(p ≠ pyUpper p) := not_not_intro hp
    simp [mkRegistry, validatePfx, hnn]
  · simp [mkRegistry, validatePfx, hp]

/-- Witness for C8 at a concrete input: the lower-case prefix `"app_"` is
rejected. -/
theorem c8_witness :
    mkRegistry "app_"
      = .error (.pfxNotUpper "El prefijo de nombre de variables de entorno debe ir en MAYÚSCULAS") :=
  (c8_registry_construction_validates_upper_case "app_").1.mpr (by decide)

/-- C9: a declaration fails with `VariableNameMustBeUpperCaseError` (the
spec's `InvalidVariableNameError`) exactly when the short name differs from
its own upper-cased form; on that failure the result is the same for every
environment (the environment is not consulted) and no config is built. -/
theorem c9_declaration_validates_name_before_resolution
    (p name : String) (cast : Cast) (default : DefaultArg) :
    (name ≠ pyUpper name →
      ∀ env : Env, mkVariableConfig env p name cast default
        = (.error (.nameNotUpper "El nombre de variables de entorno debe ir en MAYÚSCULAS"), 0))
    ∧ (name = pyUpper name →
      ∀ env : Env, (mkVariableConfig env p name cast default).1
        ≠ .error (.nameNotUpper "El nombre de variables de entorno debe ir en MAYÚSCULAS")) := by
  constructor
  · intro hname env
    simp [mkVariableConfig, validateName, hname]
  · intro hname env h
    have hval : validateName name = .ok () := by
      have hnn : ¬(name ≠ pyUpper name) := not_not_intro hname
      simp [validateName, hnn]
    unfold mkVariableConfig at h
    rw [hval] at h
    cases hl : load env (p ++ name) cast default with
    | mk res k =>
      rw [hl] at h
      cases res with
      | error e =>
        simp at h
        subst h
        rcases load_error_shape env _ cast default _ k hl with ⟨msg, hmsg⟩ | ⟨s, hs⟩
        · exact PyErr.noConfusion hmsg
        · exact PyErr.noConfusion hs
      | ok out => simp at h

/-- Witness for C9 at a concrete input: the lower-case name `"db_port"`
is rejected with the same result under an arbitrary concrete environment. -/
theorem c9_witness :
    mkVariableConfig (fun _ => some "42") "" "db_port"
        (fun s => .ok (.str s)) .ellipsis
      = (.error (.nameNotUpper "El nombre de variables de entorno debe ir en MAYÚSCULAS"), 0) :=
  (c9_declaration_validates_name_before_resolution "" "db_port"
    (fun s => .ok (.str s)) .ellipsis).1 (by decide) (fun _ => some "42")

/-- C3: with a valid name, no environment value for the qualified name and a
zero-argument callable default `f`, the declaration invokes `f` exactly once
(count 1) and stores `f ()` as the resolved value with `defaultUsed = true`;
when an environment value is present, `f` is never invoked (count 0). -/
theorem c3_callable_default_lazily_invoked_exactly_once
    (env : Env) (p name : String) (cast : Cast) (f : Unit → Value)
    (hname : name = pyUpper name) :
    (env (p ++ name) = none →
      mkVariableConfig env p name cast (.callable f)
        = (.ok ⟨name, cast, .callable f, p, p ++ name, f (), true⟩, 1))
    ∧ (∀ raw, env (p ++ name) = some raw →
        (mkVariableConfig env p name cast (.callable f)).2 = 0) := by
  have hval : validateName name = .ok () := by
    have hnn : ¬(name ≠ pyUpper name) := not_not_intro hname
    simp [validateName, hnn]
  constructor
  · intro henv
    unfold mkVariableConfig
    rw [hval]
    simp [load, henv, getDefaultVar]
  · intro raw henv
    unfold mkVariableConfig
    rw [hval]
    cases hc : cast raw with
    | error s => simp [load, henv, castValue, hc]
    | ok v => simp [load, henv, castValue, hc]

/-- Witness for C3 at a concrete input: with no environment value, the
callable default runs once and its result is stored. -/
theorem c3_witness :
    mkVariableConfig (fun _ => none) "APP_" "DB"
        (fun s => .ok (.str s)) (.callable fun _ => .int 7)
      = (.ok ⟨"DB", fun s => .ok (.str s), .callable fun _ => .int 7,
              "APP_", "APP_DB", .int 7, true⟩, 1) :=
  (c3_callable_default_lazily_invoked_exactly_once (fun _ => none) "APP_" "DB"
    (fun s => .ok (.str s)) (fun _ => .int 7) (by decide)).1 rfl

/-- C4: with a valid name and an environment value `raw` for the qualified
name, the entry records `defaultUsed = false` and `value = cast raw`; if the
cast raises, that exact exception propagates (its payload verbatim, tagged
as a cast-raised exception, not converted into one of the library's own
error kinds). -/
theorem c4_present_value_is_cast_and_cast_failures_propagate
    (env : Env) (p name : String) (cast : Cast) (default : DefaultArg)
    (raw : String) (hname : name = pyUpper name)
    (henv : env (p ++ name) = some raw) :
    (∀ v, cast raw = .ok v →
      mkVariableConfig env p name cast default
        = (.ok ⟨name, cast, default, p, p ++ name, v, false⟩, 0))
    ∧ (∀ s, cast raw = .error s →
      mkVariableConfig env p name cast default
        = (.error (.raisedByCast s), 0)) := by
  have hval : validateName name = .ok () := by
    have hnn : ¬(name ≠ pyUpper name) := not_not_intro hname
    simp [validateName, hnn]
  constructor
  · intro v hc
    unfold mkVariableConfig
    rw [hval]
    simp [load, henv, castValue, hc]
  · intro s hc
    unfold mkVariableConfig
    rw [hval]
    simp [load, henv, castValue, hc]

/-- Witness for C4 at a concrete input: an environment value is cast and
stored with `defaultUsed = false`. -/
theorem c4_witness :
    mkVariableConfig (fun _ => some "5432") "" "PORT"
        (fun s => .ok (.str s)) .ellipsis
      = (.ok ⟨"PORT", fun s => .ok (.str s), .ellipsis,
              "", "PORT", .str "5432", false⟩, 0) :=
  (c4_present_value_is_cast_and_cast_failures_propagate (fun _ => some "5432")
    "" "PORT" (fun s => .ok (.str s)) .ellipsis "5432" (by decide) rfl).1
    (.str "5432") rfl

/-- C5: with a valid name, no environment value for the qualified name and
the `...` sentinel as default, the declaration fails with
`EnvironmentVariableNotDefined` (the spec's `MissingVariableError`) and the
error message contains the qualified name `prefix + name`. -/
theorem c5_missing_variable_error_names_qualified_name
    (env : Env) (p name : String) (cast : Cast)
    (hname : name = pyUpper name) (henv : env (p ++ name) = none) :
    mkVariableConfig env p name cast .ellipsis
      = (.error (.notDefined ("Variable '" ++ (p ++ name) ++ "' no definida.")), 0)
    ∧ ∃ s t, s ++ (p ++ name).data ++ t
        = ("Variable '" ++ (p ++ name) ++ "' no definida.").data := by
  have hval : validateName name = .ok () := by
    have hnn : ¬(name ≠ pyUpper name) := not_not_intro hname
    simp [validateName, hnn]
  constructor
  · unfold mkVariableConfig
    rw [hval]
    simp [load, henv, getDefaultVar]
  · refine ⟨"Variable '".data, "' no definida.".data, ?_⟩
    simp [List.append_assoc]

/-- Witness for C5 at a concrete input: `DB_PORT` without an environment
value and without a default fails, naming `APP_DB_PORT`. -/
theorem c5_witness :
    mkVariableConfig (fun _ => none) "APP_" "DB_PORT"
        (fun s => .ok (.str s)) .ellipsis
      = (.error (.notDefined "Variable 'APP_DB_PORT' no definida."), 0) :=
  (c5_missing_variable_error_names_qualified_name (fun _ => none) "APP_"
    "DB_PORT" (fun s => .ok (.str s)) (by decide) rfl).1

/-- C10: with a valid name, no environment value and a plain (non-callable)
default `v`, the entry stores `v` exactly as given with `defaultUsed = true`
and the cast function is never invoked: the resolution result is the same
for every cast function, even one whose results have a different type than
`v`. -/
theorem c10_plain_default_stored_as_given_without_cast
    (env : Env) (p name : String) (cast cast' : Cast) (v : Value)
    (hname : name = pyUpper name) (henv : env (p ++ name) = none) :
    mkVariableConfig env p name cast (.plain v)
      = (.ok ⟨name, cast, .plain v, p, p ++ name, v, true⟩, 0)
    ∧ load env (p ++ name) cast (.plain v)
        = load env (p ++ name) cast' (.plain v) := by
  have hval : validateName name = .ok () := by
    have hnn : ¬(name ≠ pyUpper name) := not_not_intro hname
    simp [validateName, hnn]
  constructor
  · unfold mkVariableConfig
    rw [hval]
    simp [load, henv, getDefaultVar]
  · simp [load, henv, getDefaultVar]

/-- Witness for C10 at a concrete input: declaring with an int-producing
cast but the *string* default `"5432"` resolves to the string `"5432"`,
untouched by the cast. -/
theorem c10_witness :
    mkVariableConfig (fun _ => none) "" "DB_PORT"
        (fun _ => .ok (.int 0)) (.plain (.str "5432"))
      = (.ok ⟨"DB_PORT", fun _ => .ok (.int 0), .plain (.str "5432"),
              "", "DB_PORT", .str "5432", true⟩, 0) :=
  (c10_plain_default_stored_as_given_without_cast (fun _ => none) "" "DB_PORT"
    (fun _ => .ok (.int 0)) (fun s => .ok (.str s)) (.str "5432")
    (by decide) rfl).1

/-- The registry of the C6 counterexample: prefix `"P_"`, then the short
name `"P_A"` is declared (stored under `"P_P_A"`, value `1`), then the short
name `"A"` (stored under `"P_A"`, value `2`). -/
def c6Registry : DotEnvironment :=
  (DotEnvironment.variable (fun _ => none)
    ((DotEnvironment.variable (fun _ => none) ⟨"P_", []⟩ "P_A"
        (fun s => .ok (.str s)) (.plain (.int 1))).1)
    "A" (fun s => .ok (.str s)) (.plain (.int 2))).1

/-- C6 fails as universally stated: in `c6Registry`, the short name `"P_A"`
was successfully declared (resolving to `1`), yet `lookup("P_A")` finds the
*bare* key `"P_A"` — the qualified name of the other entry — and returns
`2`, while `lookup("P_P_A")` returns `1`; the two lookups disagree. -/
theorem c6_counterexample :
    (DotEnvironment.variable (fun _ => none) ⟨"P_", []⟩ "P_A"
        (fun s => .ok (.str s)) (.plain (.int 1))).2.1 = .ok (.int 1)
    ∧ DotEnvironment.getItem c6Registry "P_A" = .ok (.val (.int 2))
    ∧ DotEnvironment.getItem c6Registry "P_P_A" = .ok (.val (.int 1))
    ∧ ¬ (DotEnvironment.getItem c6Registry "P_A"
          = DotEnvironment.getItem c6Registry "P_P_A") := by
  refine ⟨rfl, rfl, rfl, ?_⟩
  intro h
  have h2 : DotEnvironment.getItem c6Registry "P_A" = .ok (.val (.int 2)) := rfl
  have h1 : DotEnvironment.getItem c6Registry "P_P_A" = .ok (.val (.int 1)) := rfl
  rw [h2, h1] at h
  simp at h

/-- C6 as amended: after every successful declaration of a short name,
`lookup(prefix ++ name)` returns the declaration's resolved value and
`contains` holds for both the bare and the prefixed form, all
unconditionally; additionally, provided the bare key `name` is not the
stored qualified name of a *different* entry (it is absent, or coincides
with `prefix ++ name`), `lookup(name)` agrees with
`lookup(prefix ++ name)`. -/
theorem c6_lookup_and_contains_agree_on_bare_and_prefixed
    (env : Env) (d : DotEnvironment) (name : String) (cast : Cast)
    (default : DefaultArg) (v : Value)
    (hsucc : (DotEnvironment.variable env d name cast default).2.1 = .ok v) :
    ((dictGet (DotEnvironment.variable env d name cast default).1.storedVariables name = none
        ∨ name = d.pfx ++ name) →
      DotEnvironment.getItem (DotEnvironment.variable env d name cast default).1 name
        = DotEnvironment.getItem (DotEnvironment.variable env d name cast default).1 (d.pfx ++ name))
    ∧ DotEnvironment.getItem (DotEnvironment.variable env d name cast default).1 (d.pfx ++ name)
      = .ok (.val v)
    ∧ DotEnvironment.contains (DotEnvironment.variable env d name cast default).1 name = true
    ∧ DotEnvironment.contains (DotEnvironment.variable env d name cast default).1 (d.pfx ++ name) = true := by
  cases hres : mkVariableConfig env d.pfx name cast default with
  | mk res k =>
    cases res with
    | error e =>
      exfalso
      simp [DotEnvironment.variable, hres] at hsucc
    | ok vc =>
      have hvar := variable_ok env d name cast default vc k hres
      rw [hvar] at hsucc ⊢
      dsimp only at hsucc ⊢
      have hval : vc.value = v := by simpa using hsucc
      have hqn : dictGet (dictSet d.storedVariables (d.pfx ++ name) vc) (d.pfx ++ name) = some vc :=
        dictGet_dictSet_self _ _ _
      have hmem : dictMem (dictSet d.storedVariables (d.pfx ++ name) vc) (d.pfx ++ name) = true :=
        dictMem_eq_true_of_dictGet _ _ _ hqn
      refine ⟨?_, ?_, ?_, ?_⟩
      · intro hbare
        rcases hbare with hnone | heq
        · simp [DotEnvironment.getItem, hnone, hqn]
        · rw [← heq]
      · simp [DotEnvironment.getItem, hqn, hval]
      · simp [DotEnvironment.contains, hmem]
      · simp [DotEnvironment.contains, hmem]

/-- Witness for the amended C6 at a concrete input: after declaring
`DB_PORT` with default `5432` on a registry with prefix `APP_`, the bare and
prefixed lookups agree and return `5432`, and `contains` holds for both
forms. -/
theorem c6_witness :
    DotEnvironment.getItem (DotEnvironment.variable (fun _ => none)
        ⟨"APP_", []⟩ "DB_PORT" (fun s => .ok (.str s)) (.plain (.int 5432))).1 "DB_PORT"
      = DotEnvironment.getItem (DotEnvironment.variable (fun _ => none)
        ⟨"APP_", []⟩ "DB_PORT" (fun s => .ok (.str s)) (.plain (.int 5432))).1 "APP_DB_PORT"
    ∧ DotEnvironment.getItem (DotEnvironment.variable (fun _ => none)
        ⟨"APP_", []⟩ "DB_PORT" (fun s => .ok (.str s)) (.plain (.int 5432))).1 "APP_DB_PORT"
      = .ok (.val (.int 5432))
    ∧ DotEnvironment.contains (DotEnvironment.variable (fun _ => none)
        ⟨"APP_", []⟩ "DB_PORT" (fun s => .ok (.str s)) (.plain (.int 5432))).1 "DB_PORT"
      = true :=
  ⟨(c6_lookup_and_contains_agree_on_bare_and_prefixed (fun _ => none)
      ⟨"APP_", []⟩ "DB_PORT" (fun s => .ok (.str s)) (.plain (.int 5432))
      (.int 5432) rfl).1 (Or.inl rfl),
   (c6_lookup_and_contains_agree_on_bare_and_prefixed (fun _ => none)
      ⟨"APP_", []⟩ "DB_PORT" (fun s => .ok (.str s)) (.plain (.int 5432))
      (.int 5432) rfl).2.1,
   (c6_lookup_and_contains_agree_on_bare_and_prefixed (fun _ => none)
      ⟨"APP_", []⟩ "DB_PORT" (fun s => .ok (.str s)) (.plain (.int 5432))
      (.int 5432) rfl).2.2.1⟩

/-- C7: declaring the same short name twice in succession (both calls
succeeding) replaces the entry under the qualified name — the stored entry
and a subsequent lookup yield the value resolved by the later declaration —
while each call only grows the key set and leaves every other entry
untouched. -/
theorem c7_redeclaration_replaces_entry_and_mapping_grows
    (env : Env) (d : DotEnvironment) (name : String)
    (c₁ c₂ : Cast) (df₁ df₂ : DefaultArg) (v₁ v₂ : Value)
    (h₁ : (DotEnvironment.variable env d name c₁ df₁).2.1 = .ok v₁)
    (h₂ : (DotEnvironment.variable env (DotEnvironment.variable env d name c₁ df₁).1 name c₂ df₂).2.1 = .ok v₂) :
    (∃ vc, dictGet (DotEnvironment.variable env (DotEnvironment.variable env d name c₁ df₁).1 name c₂ df₂).1.storedVariables (d.pfx ++ name) = some vc
           ∧ vc.value = v₂)
    ∧ DotEnvironment.getItem (DotEnvironment.variable env (DotEnvironment.variable env d name c₁ df₁).1 name c₂ df₂).1 (d.pfx ++ name)
        = .ok (.val v₂)
    ∧ (∀ k', dictMem d.storedVariables k' = true →
        dictMem (DotEnvironment.variable env d name c₁ df₁).1.storedVariables k' = true)
    ∧ (∀ k', dictMem (DotEnvironment.variable env d name c₁ df₁).1.storedVariables k' = true →
        dictMem (DotEnvironment.variable env (DotEnvironment.variable env d name c₁ df₁).1 name c₂ df₂).1.storedVariables k' = true)
    ∧ (∀ k', k' ≠ d.pfx ++ name →
        dictGet (DotEnvironment.variable env (DotEnvironment.variable env d name c₁ df₁).1 name c₂ df₂).1.storedVariables k'
          = dictGet (DotEnvironment.variable env d name c₁ df₁).1.storedVariables k') := by
  cases hm₁ : mkVariableConfig env d.pfx name c₁ df₁ with
  | mk r₁ k₁ =>
    cases r₁ with
    | error e =>
      exfalso
      simp [DotEnvironment.variable, hm₁] at h₁
    | ok vc₁ =>
      have hv₁ : DotEnvironment.variable env d name c₁ df₁
          = ({ d with storedVariables := dictSet d.storedVariables (d.pfx ++ name) vc₁ }, .ok vc₁.value, k₁) :=
        variable_ok env d name c₁ df₁ vc₁ k₁ hm₁
      rw [hv₁] at h₂ ⊢
      dsimp only at h₂ ⊢
      cases hm₂ : mkVariableConfig env d.pfx name c₂ df₂ with
      | mk r₂ k₂ =>
        cases r₂ with
        | error e =>
          exfalso
          simp [DotEnvironment.variable, hm₂] at h₂
        | ok vc₂ =>
          have hv₂ : DotEnvironment.variable env
              { d with storedVariables := dictSet d.storedVariables (d.pfx ++ name) vc₁ } name c₂ df₂
              = ({ d with storedVariables := dictSet (dictSet d.storedVariables (d.pfx ++ name) vc₁) (d.pfx ++ name) vc₂ }, .ok vc₂.value, k₂) :=
            variable_ok env _ name c₂ df₂ vc₂ k₂ hm₂
          rw [hv₂] at h₂ ⊢
          dsimp only at h₂ ⊢
          have hval₂ : vc₂.value = v₂ := by simpa using h₂
          have hq : dictGet (dictSet (dictSet d.storedVariables (d.pfx ++ name) vc₁) (d.pfx ++ name) vc₂) (d.pfx ++ name) = some vc₂ :=
            dictGet_dictSet_self _ _ _
          refine ⟨⟨vc₂, hq, hval₂⟩, ?_, ?_, ?_, ?_⟩
          · simp [DotEnvironment.getItem, hq, hval₂]
          · intro k' hk'
            simp [dictMem_dictSet, hk']
          · intro k' hk'
            simp [dictMem_dictSet] at hk' ⊢
            tauto
          · intro k' hk'
            exact dictGet_dictSet_ne _ _ _ _ hk'

/-- Witness for C7 at a concrete input: declaring `DB_PORT` with default `1`
and then with default `2` leaves lookup returning `2`. -/
theorem c7_witness :
    DotEnvironment.getItem
      (DotEnvironment.variable (fun _ => none)
        ((DotEnvironment.variable (fun _ => none) ⟨"", []⟩ "DB_PORT"
            (fun s => .ok (.str s)) (.plain (.int 1))).1)
        "DB_PORT" (fun s => .ok (.str s)) (.plain (.int 2))).1 "DB_PORT"
      = .ok (.val (.int 2)) :=
  (c7_redeclaration_replaces_entry_and_mapping_grows (fun _ => none) ⟨"", []⟩
    "DB_PORT" (fun s => .ok (.str s)) (fun s => .ok (.str s))
    (.plain (.int 1)) (.plain (.int 2)) (.int 1) (.int 2) rfl rfl).2.1
